import Mathlib

/-!
# Verification of the lawn-mower route planner

Shallow embedding, over exact rationals, of the geometry core of
`bok_ucgs_fish_route` (files `route_planner/lawn_mower.py`,
`route_planner/perimeter.py`, `coordinates/route.py`,
`coordinates/waypoint.py`), together with theorems settling the frozen
claims about the repository's specification.

Conventions of the embedding:

* Python floats are modelled by `ℚ`; every constant of the source
  (`1e-10`, `1e-8`) is carried over exactly, so all branch conditions of
  the code are evaluated exactly as written.
* The angled generator `_create_angled_lawn_mower_utm` computes its scan
  direction as `dx = sin(radians((angle + 90) % 180))`,
  `dy = cos(radians((angle + 90) % 180))` and from then on uses only the
  pair `(dx, dy)`.  The geometric core is therefore embedded as a
  function of the direction components `(dx, dy)` (a point of the unit
  circle); the trigonometric wrapper itself is embedded separately over
  `ℝ` for the angle-conversion claim.  Concrete inputs use rational
  points of the unit circle such as `(3/5, -4/5)`, each of which is
  `(sin r, cos r)` for exactly one `r ∈ [0°, 180°)` and hence reachable
  from a compass angle.
* The WGS84 branch (`was_converted = True`, pyproj round-trips) is
  external-library behaviour and is not modelled; all claims concern the
  planar (UTM) geometry, where the code returns `utm_coordinates`
  directly.
-/

/-- An axis-aligned rectangle, `x_min < x_max` and `y_min < y_max` for
valid inputs (the fields themselves are unconstrained, as in the code). -/
structure Rect where
  x_min : ℚ
  y_min : ℚ
  x_max : ℚ
  y_max : ℚ
deriving DecidableEq

/-- The duplicate/parallel tolerance `1e-10` of the source. -/
def eps_dup : ℚ := 1 / 10 ^ 10

/-- The nudge amount `1e-8` of the source's duplicate-adjustment step. -/
def eps_adjust : ℚ := 1 / 10 ^ 8

/-- The rectangle corners in clockwise order, exactly as listed at
`lawn_mower.py:337-342`: bottom-left, bottom-right, top-right, top-left. -/
def Rect.corners (r : Rect) : List (ℚ × ℚ) :=
  [(r.x_min, r.y_min), (r.x_max, r.y_min), (r.x_max, r.y_max), (r.x_min, r.y_max)]

/-- Intersection of band line `j`-th rectangle edge test,
`lawn_mower.py:396-432`: the edge runs from corner `j` to corner
`(j+1) % 4`; coordinates are taken relative to the rectangle center; the
edge is skipped when `|denominator| < 1e-10` (parallel), otherwise the
parameter `t` is computed and the point kept when `0 ≤ t ≤ 1`. -/
def edge_intersection (r : Rect) (dx dy offset : ℚ) (j : ℕ) : Option (ℚ × ℚ) :=
  let center_x := (r.x_min + r.x_max) / 2
  let center_y := (r.y_min + r.y_max) / 2
  let start_corner := r.corners.getD (j % 4) (0, 0)
  let end_corner := r.corners.getD ((j + 1) % 4) (0, 0)
  let start_x := start_corner.1 - center_x
  let start_y := start_corner.2 - center_y
  let end_x := end_corner.1 - center_x
  let end_y := end_corner.2 - center_y
  let band_dx := -dy
  let band_dy := dx
  let denominator := dx * (end_x - start_x) + dy * (end_y - start_y)
  if |denominator| < eps_dup then none
  else
    let t := (dx * (offset * band_dx - start_x) + dy * (offset * band_dy - start_y)) / denominator
    if 0 ≤ t ∧ t ≤ 1 then
      some (center_x + (start_x + (end_x - start_x) * t),
            center_y + (start_y + (end_y - start_y) * t))
    else none

/-- The list `band_intersections` accumulated over the four edges
(`lawn_mower.py:393-432`), in edge order. -/
def band_intersections (r : Rect) (dx dy offset : ℚ) : List (ℚ × ℚ) :=
  (List.range 4).filterMap (edge_intersection r dx dy offset)

/-- The point-order step of `lawn_mower.py:436-453`: the pair is swapped
when `(i % 2 == 0 and dot < 0) or (i % 2 == 1 and dot > 0)`, where `dot`
is the dot product of `p2 - p1` with the band direction. -/
def orient_band (i : ℕ) (p1 p2 : ℚ × ℚ) (band_dx band_dy : ℚ) : (ℚ × ℚ) × (ℚ × ℚ) :=
  let vec_x := p2.1 - p1.1
  let vec_y := p2.2 - p1.2
  let dot_product := vec_x * band_dx + vec_y * band_dy
  if (i % 2 = 0 ∧ dot_product < 0) ∨ (i % 2 = 1 ∧ 0 < dot_product) then (p2, p1)
  else (p1, p2)

/-- Duplicate test of `lawn_mower.py:462-468`: the point is a duplicate
when some already-recorded intersection is within `1e-10` in both
coordinates. -/
def is_dup (existing : List (ℚ × ℚ)) (p : ℚ × ℚ) : Bool :=
  existing.any fun q => decide (|q.1 - p.1| < eps_dup) && decide (|q.2 - p.2| < eps_dup)

/-- Duplicate-point adjustment of `lawn_mower.py:470-488`: a duplicate
point is nudged along the edge it lies on (`+1e-8` on the bottom edge's
x, `-1e-8` on the top edge's x, `+1e-8` on the left edge's y, `-1e-8` on
the right edge's y). -/
def adjust_point (r : Rect) (existing : List (ℚ × ℚ)) (p : ℚ × ℚ) : ℚ × ℚ :=
  if is_dup existing p then
    if |p.2 - r.y_min| < eps_dup then (p.1 + eps_adjust, p.2)
    else if |p.2 - r.y_max| < eps_dup then (p.1 - eps_adjust, p.2)
    else if |p.1 - r.x_min| < eps_dup then (p.1, p.2 + eps_adjust)
    else if |p.1 - r.x_max| < eps_dup then (p.1, p.2 - eps_adjust)
    else p
  else p

/-- One iteration of the band loop of `lawn_mower.py:388-498`.  The
state is `(all_intersections, utm_coordinates)`.  A band contributes
exactly when its intersection list has exactly two entries
(`len(band_intersections) == 2`, line 435); the pair is then ordered by
`orient_band` against the band direction `(-dy, dx)`, both points are
adjusted against the pre-band `all_intersections`, and the adjusted
points are appended to both state components. -/
def angled_band_step (r : Rect) (dx dy start_offset actual_band_distance : ℚ)
    (st : List (ℚ × ℚ) × List (ℚ × ℚ)) (i : ℕ) : List (ℚ × ℚ) × List (ℚ × ℚ) :=
  match band_intersections r dx dy (start_offset + i * actual_band_distance) with
  | [p1, p2] =>
      (st.1 ++ [adjust_point r st.1 (orient_band i p1 p2 (-dy) dx).1,
                adjust_point r st.1 (orient_band i p1 p2 (-dy) dx).2],
       st.2 ++ [adjust_point r st.1 (orient_band i p1 p2 (-dy) dx).1,
                adjust_point r st.1 (orient_band i p1 p2 (-dy) dx).2])
  | _ => st

/-- `projection_length` of `lawn_mower.py:369`. -/
def angled_projection_length (r : Rect) (dx dy : ℚ) : ℚ :=
  |(r.x_max - r.x_min) * dx| + |(r.y_max - r.y_min) * dy|

/-- `num_bands` of `lawn_mower.py:372`. -/
def angled_num_bands (r : Rect) (band_distance dx dy : ℚ) : ℕ :=
  (max 2 (⌈angled_projection_length r dx dy / band_distance⌉ + 1)).toNat

/-- `actual_band_distance` of `lawn_mower.py:375`. -/
def angled_actual_band_distance (r : Rect) (band_distance dx dy : ℚ) : ℚ :=
  if 1 < angled_num_bands r band_distance dx dy then
    angled_projection_length r dx dy / ((angled_num_bands r band_distance dx dy : ℚ) - 1)
  else angled_projection_length r dx dy

/-- The UTM branch of `_create_angled_lawn_mower_utm`
(`lawn_mower.py:313-520`), as a function of the rectangle, the requested
band distance and the scan direction components
`(dx, dy) = (sin(line_angle_rad), cos(line_angle_rad))` computed at
`lawn_mower.py:356-361`. -/
def create_angled_lawn_mower_utm (r : Rect) (band_distance dx dy : ℚ) : List (ℚ × ℚ) :=
  ((List.range (angled_num_bands r band_distance dx dy)).foldl
    (angled_band_step r dx dy (-angled_projection_length r dx dy / 2)
      (angled_actual_band_distance r band_distance dx dy)) ([], [])).2

/-! ## The axis-aligned (vertical) generator, `lawn_mower.py:67-138` -/

/-- `num_bands` before the correction step, `lawn_mower.py:93`. -/
def vertical_num_bands_initial (width band_distance : ℚ) : ℤ :=
  max 2 (⌈width / band_distance⌉ + 1)

/-- `actual_band_distance` before the correction step, `lawn_mower.py:96`. -/
def vertical_band_distance_initial (width band_distance : ℚ) : ℚ :=
  if 1 < vertical_num_bands_initial width band_distance then
    width / ((vertical_num_bands_initial width band_distance : ℚ) - 1)
  else width

/-- `num_bands` after the correction step of `lawn_mower.py:99-102`
(`num_bands` is incremented when `actual_band_distance > band_distance`). -/
def vertical_num_bands (width band_distance : ℚ) : ℤ :=
  if band_distance < vertical_band_distance_initial width band_distance then
    vertical_num_bands_initial width band_distance + 1
  else vertical_num_bands_initial width band_distance

/-- `actual_band_distance` after the correction step, `lawn_mower.py:99-102`. -/
def vertical_band_distance (width band_distance : ℚ) : ℚ :=
  if band_distance < vertical_band_distance_initial width band_distance then
    width / ((vertical_num_bands_initial width band_distance + 1 : ℚ) - 1)
  else vertical_band_distance_initial width band_distance

/-- The UTM branch of `_create_vertical_lawn_mower_utm`
(`lawn_mower.py:67-138`): `num_bands` vertical strips at
`x = x_min + i * actual_band_distance`, even strips south to north, odd
strips north to south. -/
def vertical_band_points (r : Rect) (band_distance : ℚ) (acc : List (ℚ × ℚ)) (i : ℕ) :
    List (ℚ × ℚ) :=
  if i % 2 = 0 then
    acc ++ [(r.x_min + i * vertical_band_distance (r.x_max - r.x_min) band_distance, r.y_min),
            (r.x_min + i * vertical_band_distance (r.x_max - r.x_min) band_distance, r.y_max)]
  else
    acc ++ [(r.x_min + i * vertical_band_distance (r.x_max - r.x_min) band_distance, r.y_max),
            (r.x_min + i * vertical_band_distance (r.x_max - r.x_min) band_distance, r.y_min)]

def create_vertical_lawn_mower_utm (r : Rect) (band_distance : ℚ) : List (ℚ × ℚ) :=
  (List.range (vertical_num_bands (r.x_max - r.x_min) band_distance).toNat).foldl
    (vertical_band_points r band_distance) []

/-! ## Waypoints, route segments and the perimeter planner -/

/-- `WaypointCoordinate` of `coordinates/waypoint.py`: positional fields
`(lon, lat, altitude)`. -/
structure WaypointCoordinate where
  lon : ℚ
  lat : ℚ
  altitude : ℚ
deriving DecidableEq

/-- `RouteSegment` of `coordinates/route.py:114-158`. -/
structure RouteSegment where
  waypoints : List WaypointCoordinate
  speed : ℚ
deriving DecidableEq

/-- `RouteSegment.__init__` (`route.py:123-140`): raises on an empty
waypoint list, then on non-positive speed; modelled as `Except`. -/
def RouteSegment.create (waypoints : List WaypointCoordinate) (speed : ℚ) :
    Except String RouteSegment :=
  if waypoints = [] then .error "RouteSegment must contain at least one waypoint"
  else if speed ≤ 0 then .error "Speed must be positive"
  else .ok ⟨waypoints, speed⟩

/-- `create_route_segment_perimeter` (`perimeter.py:7-52`): the five
clockwise corner coordinates starting and ending at `corner1`, each
passed positionally as `WaypointCoordinate(lat, lon)` — so, as in the
source, the `(lat, lon)` pair lands in the `(lon, lat)` fields. -/
def create_route_segment_perimeter (corner1 corner2 : ℚ × ℚ) (speed : ℚ) :
    Except String RouteSegment :=
  RouteSegment.create
    [⟨corner1.1, corner1.2, 0⟩,
     ⟨corner1.1, corner2.2, 0⟩,
     ⟨corner2.1, corner2.2, 0⟩,
     ⟨corner2.1, corner1.2, 0⟩,
     ⟨corner1.1, corner1.2, 0⟩] speed

/-! ## The turning-radius reorderer (not present under `src/`) -/

/-- A scan strip, spec §3: an ordered pair of a start point and an
optional end point (`none` for the degenerate one-point case). -/
structure Strip where
  start : ℚ × ℚ
  stop : Option (ℚ × ℚ)
deriving DecidableEq

/-- Direction vector of a strip (zero for a degenerate strip). -/
def Strip.dir (s : Strip) : ℚ × ℚ :=
  match s.stop with
  | some e => (e.1 - s.start.1, e.2 - s.start.2)
  | none => (0, 0)

/-- Signed perpendicular offset from `s0` to `s1`: the component of
`s1.start - s0.start` along the left normal of `s0`'s direction.  The
spec's strips (§4.3) are parallel with a common unit direction, for
which this is the signed perpendicular distance of §4.3 step 1. -/
def signed_strip_offset (s0 s1 : Strip) : ℚ :=
  -(s0.dir.2) * (s1.start.1 - s0.start.1) + s0.dir.1 * (s1.start.2 - s0.start.2)

/-- Signed spacing of a strip list: the signed perpendicular offset from
the first strip to the second, `0` when fewer than two strips exist. -/
def strip_spacing : List Strip → ℚ
  | s0 :: s1 :: _ => signed_strip_offset s0 s1
  | _ => 0

/-- The back-and-forth skip pattern of §4.3 step 3 on indices
`0 .. n-1`: indices are grouped by residue class modulo `lag`
(consecutive indices within one pass differ by exactly `lag`), every
index is visited exactly once, and passes alternate direction. -/
def skip_pattern (n lag : ℕ) : List ℕ :=
  ((List.range lag).map fun c =>
    if c % 2 = 0 then (List.range ((n - c + lag - 1) / lag)).map fun k => c + k * lag
    else ((List.range ((n - c + lag - 1) / lag)).map fun k => c + k * lag).reverse).flatten

/-- Modelled from the spec: `reorder_for_turning_radius` appears in the
spec (§4.3, §6, §8) but nowhere under `src/`; only this exported name
is described.  Per §4.3 step 2 a list whose spacing `d` satisfies
`2·turning_radius ≤ d` is returned unchanged in its natural (input)
order, which together with §2 ("skipped if turning radius is zero") and
§7 ("0 is valid and means unconstrained") covers every zero-radius call;
otherwise the list is normalized to non-negative spacing (§4.3 step 1)
and reordered by the skip pattern with `lag = ⌈2·turning_radius / d⌉`
(§4.3 step 3; the spec leaves the out-of-range synthetic-strip
construction underdetermined, and no claim settled here exercises it). -/
def reorder_for_turning_radius (strips : List Strip) (turning_radius : ℚ) : List Strip :=
  if 2 * turning_radius ≤ |strip_spacing strips| then strips
  else
    let ordered := if strip_spacing strips < 0 then strips.reverse else strips
    let lag := (⌈2 * turning_radius / |strip_spacing strips|⌉).toNat
    (skip_pattern ordered.length lag).map fun idx => ordered.getD idx ⟨(0, 0), none⟩

/-! ## The trigonometric angle conversion, `lawn_mower.py:351-361` -/

/-- Python's float modulo `a % b` (for the `% 180` of the source). -/
noncomputable def py_mod (a b : ℝ) : ℝ := a - b * ⌊a / b⌋

/-- `line_angle_rad = math.radians((angle + 90) % 180)` of
`lawn_mower.py:356`. -/
noncomputable def line_angle_rad (angle : ℝ) : ℝ := py_mod (angle + 90) 180 * Real.pi / 180

/-- `dx = math.sin(line_angle_rad)` of `lawn_mower.py:360`. -/
noncomputable def line_dx (angle : ℝ) : ℝ := Real.sin (line_angle_rad angle)

/-- `dy = math.cos(line_angle_rad)` of `lawn_mower.py:361`. -/
noncomputable def line_dy (angle : ℝ) : ℝ := Real.cos (line_angle_rad angle)

/-- The band direction `(band_dx, band_dy) = (-dy, dx)` of
`lawn_mower.py:382-383`.  The emitted segments run along this vector
(the band-line equation of line 408 has normal `(dx, dy)`), and the band
anchor of offset `o` is `o · (band_dx, band_dy)` (lines 408 and 419), so
this same vector is also the axis along which the code moves its band
anchors. -/
noncomputable def code_band_dir (angle : ℝ) : ℝ × ℝ := (-line_dy angle, line_dx angle)

/-- Modelled from the spec (§4.2 step 1): `line_angle = (90 − angle) mod
180` in degrees. -/
noncomputable def spec_line_angle (angle : ℝ) : ℝ := py_mod (90 - angle) 180

/-- Modelled from the spec (§4.2 step 1): the reference direction
`(cos(line_angle), sin(line_angle))`. -/
noncomputable def spec_direction (angle : ℝ) : ℝ × ℝ :=
  (Real.cos (spec_line_angle angle * Real.pi / 180),
   Real.sin (spec_line_angle angle * Real.pi / 180))

/-- Modelled from the spec (§4.2 step 1): the perpendicular (offset)
axis `(-direction.y, direction.x)`. -/
noncomputable def spec_perp_axis (angle : ℝ) : ℝ × ℝ :=
  (-(spec_direction angle).2, (spec_direction angle).1)

/-- Two-dimensional cross product; two vectors are parallel (span the
same axis) exactly when it vanishes. -/
def cross2 (u v : ℝ × ℝ) : ℝ := u.1 * v.2 - u.2 * v.1

/-! ## Property predicates used by the claims -/

/-- A point lies on the boundary of the rectangle: inside the closed
rectangle and on one of its four edge lines. -/
def on_boundary (r : Rect) (p : ℚ × ℚ) : Prop :=
  (r.x_min ≤ p.1 ∧ p.1 ≤ r.x_max ∧ r.y_min ≤ p.2 ∧ p.2 ≤ r.y_max) ∧
  (p.1 = r.x_min ∨ p.1 = r.x_max ∨ p.2 = r.y_min ∨ p.2 = r.y_max)

instance (r : Rect) (p : ℚ × ℚ) : Decidable (on_boundary r p) := by
  unfold on_boundary; infer_instance

/-- The dot product of an ordered point pair's first-to-second vector
with a direction. -/
def pair_dot (q : (ℚ × ℚ) × (ℚ × ℚ)) (bdx bdy : ℚ) : ℚ :=
  (q.2.1 - q.1.1) * bdx + (q.2.2 - q.1.2) * bdy

/-! ## Helper lemmas -/

/-- The offset term cancels from the numerator of the edge parameter
`t` computed at `lawn_mower.py:419`: with `band_dx = -dy` and
`band_dy = dx`, the anchor `offset · (band_dx, band_dy)` is orthogonal
to the line normal `(dx, dy)`. -/
theorem t_numerator_cancel (dx dy offset sx sy : ℚ) :
    dx * (offset * -dy - sx) + dy * (offset * dx - sy) = -(dx * sx + dy * sy) := by
  ring

/-- Consequence: each edge test of the angled generator is independent
of the band offset — every band line is the line through the rectangle
center with normal `(dx, dy)`. -/
theorem edge_intersection_offset_irrelevant (r : Rect) (dx dy o o' : ℚ) (j : ℕ) :
    edge_intersection r dx dy o j = edge_intersection r dx dy o' j := by
  simp only [edge_intersection, t_numerator_cancel]

/-- Offset irrelevance, lifted to the full per-band intersection list. -/
theorem band_intersections_offset_irrelevant (r : Rect) (dx dy o o' : ℚ) :
    band_intersections r dx dy o = band_intersections r dx dy o' := by
  simp only [band_intersections]
  exact List.filterMap_congr fun j _ => edge_intersection_offset_irrelevant r dx dy o o' j

theorem angled_band_step_of_pair {r : Rect} {dx dy so a : ℚ}
    {st : List (ℚ × ℚ) × List (ℚ × ℚ)} {i : ℕ} {p1 p2 : ℚ × ℚ}
    (h : band_intersections r dx dy (so + i * a) = [p1, p2]) :
    angled_band_step r dx dy so a st i =
      (st.1 ++ [adjust_point r st.1 (orient_band i p1 p2 (-dy) dx).1,
                adjust_point r st.1 (orient_band i p1 p2 (-dy) dx).2],
       st.2 ++ [adjust_point r st.1 (orient_band i p1 p2 (-dy) dx).1,
                adjust_point r st.1 (orient_band i p1 p2 (-dy) dx).2]) := by
  unfold angled_band_step
  rw [h]

theorem angled_band_step_of_four {r : Rect} {dx dy so a : ℚ}
    {st : List (ℚ × ℚ) × List (ℚ × ℚ)} {i : ℕ} {u v w z : ℚ × ℚ}
    (h : band_intersections r dx dy (so + i * a) = [u, v, w, z]) :
    angled_band_step r dx dy so a st i = st := by
  unfold angled_band_step
  rw [h]

/-- Input A — rectangle `(0,0)-(8,6)`, scan normal `(3/5, -4/5)` (a
unit vector, so `(sin r, cos r)` for the compass angle `≈ 53.13°`):
every band line is the center line `3x - 4y = 0`, which crosses the
rectangle exactly at its corners `(0,0)` and `(8,6)`; each corner is
reported once per incident edge, giving four entries. -/
theorem band_A (o : ℚ) : band_intersections ⟨0, 0, 8, 6⟩ (3/5) (-4/5) o
    = [(0, 0), (8, 6), (8, 6), (0, 0)] := by
  rw [band_intersections_offset_irrelevant _ _ _ o 0]
  norm_num [band_intersections, edge_intersection, eps_dup, Rect.corners,
    List.range_succ, List.filterMap, abs]

theorem proj_A : angled_projection_length ⟨0, 0, 8, 6⟩ (3/5) (-4/5) = 48/5 := by
  norm_num [angled_projection_length, abs]

theorem nb_A : angled_num_bands ⟨0, 0, 8, 6⟩ 10 (3/5) (-4/5) = 2 := by
  unfold angled_num_bands
  rw [proj_A, show ((48:ℚ)/5) / 10 = 24/25 by norm_num,
    show ⌈(24/25 : ℚ)⌉ = 1 by rw [Int.ceil_eq_iff]; norm_num]
  decide

/-- Input B — rectangle `(0,0)-(8,6)`, scan normal `(4/5, -3/5)`
(compass angle `≈ 36.87°`, band direction = requested heading
`(3/5, 4/5)`): every band line is the center line `4x - 3y = 7`. -/
theorem band_B (o : ℚ) : band_intersections ⟨0, 0, 8, 6⟩ (4/5) (-3/5) o
    = [(7/4, 0), (25/4, 6)] := by
  rw [band_intersections_offset_irrelevant _ _ _ o 0]
  norm_num [band_intersections, edge_intersection, eps_dup, Rect.corners,
    List.range_succ, List.filterMap, abs]

theorem proj_B : angled_projection_length ⟨0, 0, 8, 6⟩ (4/5) (-3/5) = 10 := by
  norm_num [angled_projection_length, abs]

theorem nb_B : angled_num_bands ⟨0, 0, 8, 6⟩ 10 (4/5) (-3/5) = 2 := by
  unfold angled_num_bands
  rw [proj_B, show ((10:ℚ)) / 10 = 1 by norm_num,
    show ⌈(1 : ℚ)⌉ = 1 by rw [Int.ceil_eq_iff]; norm_num]
  decide

/-- Input C — rectangle `(0,0)-(9/2 + 2·10⁻⁹, 6)`, scan normal
`(4/5, 3/5)` (compass angle `≈ 143.13°`): the center line crosses the
bottom edge `10⁻⁹` from the right corner and the top edge `10⁻⁹` from
the left corner. -/
theorem band_C (o : ℚ) : band_intersections ⟨0, 0, 9/2 + 2/10^9, 6⟩ (4/5) (3/5) o
    = [(9/2 + 1/10^9, 0), (1/10^9, 6)] := by
  rw [band_intersections_offset_irrelevant _ _ _ o 0]
  norm_num [band_intersections, edge_intersection, eps_dup, Rect.corners,
    List.range_succ, List.filterMap, abs]

theorem proj_C : angled_projection_length ⟨0, 0, 9/2 + 2/10^9, 6⟩ (4/5) (3/5)
    = 36/5 + 8/(5 * 10^9) := by
  norm_num [angled_projection_length, abs]

theorem nb_C : angled_num_bands ⟨0, 0, 9/2 + 2/10^9, 6⟩ 10 (4/5) (3/5) = 2 := by
  unfold angled_num_bands
  rw [proj_C, show ((36:ℚ)/5 + 8/(5 * 10^9)) / 10 = 4500000001/6250000000 by norm_num,
    show ⌈(4500000001/6250000000 : ℚ)⌉ = 1 by rw [Int.ceil_eq_iff]; norm_num]
  decide

/-- Full run of the angled generator on input A: both bands have four
intersection entries, so both are skipped and the output is empty. -/
theorem eval_A : create_angled_lawn_mower_utm ⟨0, 0, 8, 6⟩ 10 (3/5) (-4/5) = [] := by
  unfold create_angled_lawn_mower_utm
  rw [nb_A, show List.range 2 = [0, 1] from rfl, List.foldl_cons, List.foldl_cons,
    List.foldl_nil, angled_band_step_of_four (band_A _), angled_band_step_of_four (band_A _)]

/-- Full run of the angled generator on input B: both bands coincide;
band 0 is emitted along the heading, band 1 is swapped against it and
both its points are nudged by the duplicate adjustment. -/
theorem eval_B : create_angled_lawn_mower_utm ⟨0, 0, 8, 6⟩ 10 (4/5) (-3/5)
    = [(7/4, 0), (25/4, 6), (25/4 - 1/10^8, 6), (7/4 + 1/10^8, 0)] := by
  unfold create_angled_lawn_mower_utm
  rw [nb_B, show List.range 2 = [0, 1] from rfl, List.foldl_cons, List.foldl_cons,
    List.foldl_nil, angled_band_step_of_pair (band_B _), angled_band_step_of_pair (band_B _)]
  norm_num [orient_band, adjust_point, is_dup, eps_dup, eps_adjust,
    List.any_cons, List.any_nil]

/-- Full run of the angled generator on input C: band 1's nudges push
both duplicated points past the rectangle corners, off the boundary. -/
theorem eval_C : create_angled_lawn_mower_utm ⟨0, 0, 9/2 + 2/10^9, 6⟩ 10 (4/5) (3/5)
    = [(9/2 + 1/10^9, 0), (1/10^9, 6), (-(9/10^9), 6), (9/2 + 11/10^9, 0)] := by
  unfold create_angled_lawn_mower_utm
  rw [nb_C, show List.range 2 = [0, 1] from rfl, List.foldl_cons, List.foldl_cons,
    List.foldl_nil, angled_band_step_of_pair (band_C _), angled_band_step_of_pair (band_C _)]
  norm_num [orient_band, adjust_point, is_dup, eps_dup, eps_adjust,
    List.any_cons, List.any_nil]

/-! ## Vertical generator: arithmetic facts and a negative-spacing run -/

theorem vnb_initial_neg : vertical_num_bands_initial 10 (-1) = 2 := by
  unfold vertical_num_bands_initial
  rw [show ((10:ℚ)) / (-1) = -10 by norm_num,
    show ⌈(-10 : ℚ)⌉ = -10 by rw [Int.ceil_eq_iff]; norm_num]
  decide

theorem vbd_initial_neg : vertical_band_distance_initial 10 (-1) = 10 := by
  unfold vertical_band_distance_initial
  rw [vnb_initial_neg]
  norm_num

theorem vnb_neg : vertical_num_bands 10 (-1) = 3 := by
  unfold vertical_num_bands
  rw [vbd_initial_neg, if_pos (by norm_num : (-1:ℚ) < 10), vnb_initial_neg]
  decide

theorem vbd_neg : vertical_band_distance 10 (-1) = 5 := by
  unfold vertical_band_distance
  rw [vbd_initial_neg, vnb_initial_neg, if_pos (by norm_num : (-1:ℚ) < 10)]
  norm_num

/-- Full run of the vertical generator at `band_distance = -1` on the
square `(0,0)-(10,10)`: no rejection, a 6-waypoint list is returned. -/
theorem eval_vertical_neg : create_vertical_lawn_mower_utm ⟨0, 0, 10, 10⟩ (-1)
    = [(0, 0), (0, 10), (5, 10), (5, 0), (10, 0), (10, 10)] := by
  unfold create_vertical_lawn_mower_utm
  norm_num [vnb_neg]
  rw [show Int.toNat 3 = 3 from rfl, show List.range 3 = [0, 1, 2] from rfl,
    List.foldl_cons, List.foldl_cons, List.foldl_cons, List.foldl_nil]
  norm_num [vertical_band_points, vbd_neg]

theorem vertical_band_points_length (r : Rect) (bd : ℚ) (acc : List (ℚ × ℚ)) (i : ℕ) :
    (vertical_band_points r bd acc i).length = acc.length + 2 := by
  unfold vertical_band_points
  by_cases h : i % 2 = 0 <;> simp [h]

theorem vertical_foldl_length (r : Rect) (bd : ℚ) :
    ∀ (n : ℕ) (acc : List (ℚ × ℚ)),
      ((List.range n).foldl (vertical_band_points r bd) acc).length = acc.length + 2 * n := by
  intro n
  induction n with
  | zero => intro acc; simp
  | succ k ih =>
      intro acc
      rw [List.range_succ, List.foldl_append, List.foldl_cons, List.foldl_nil,
        vertical_band_points_length, ih]
      ring

/-! ## General facts about the generators -/

theorem angled_band_step_length (r : Rect) (dx dy so a : ℚ)
    (st : List (ℚ × ℚ) × List (ℚ × ℚ)) (i : ℕ) :
    (angled_band_step r dx dy so a st i).2.length = st.2.length ∨
    (angled_band_step r dx dy so a st i).2.length = st.2.length + 2 := by
  rcases hbi : band_intersections r dx dy (so + (i : ℚ) * a) with _ | ⟨p, _ | ⟨q, _ | ⟨w, t⟩⟩⟩
  · left; unfold angled_band_step; rw [hbi]
  · left; unfold angled_band_step; rw [hbi]
  · right; unfold angled_band_step; rw [hbi]; simp
  · left; unfold angled_band_step; rw [hbi]

theorem angled_foldl_even (r : Rect) (dx dy so a : ℚ) :
    ∀ (l : List ℕ) (st : List (ℚ × ℚ) × List (ℚ × ℚ)),
      Even st.2.length → Even ((l.foldl (angled_band_step r dx dy so a) st).2.length) := by
  intro l
  induction l with
  | nil => intro st h; simpa using h
  | cons x xs ih =>
      intro st h
      rw [List.foldl_cons]
      apply ih
      rcases angled_band_step_length r dx dy so a st x with h2 | h2 <;> rw [h2]
      · exact h
      · exact h.add even_two

theorem band_intersections_length_le (r : Rect) (dx dy o : ℚ) :
    (band_intersections r dx dy o).length ≤ 4 := by
  unfold band_intersections
  calc ((List.range 4).filterMap (edge_intersection r dx dy o)).length
      ≤ (List.range 4).length := List.length_filterMap_le _ _
    _ = 4 := by simp

/-- In exact arithmetic the correction branch of `lawn_mower.py:99-102`
never fires for positive extent and positive requested spacing:
`extent / (max(2, ⌈extent/bd⌉ + 1) - 1) ≤ bd`. -/
theorem vertical_correction_unreachable (extent bd : ℚ) (he : 0 < extent) (hb : 0 < bd) :
    vertical_band_distance_initial extent bd ≤ bd ∧
    vertical_num_bands extent bd = vertical_num_bands_initial extent bd := by
  have hq : 0 < extent / bd := div_pos he hb
  have hc1 : 1 ≤ ⌈extent / bd⌉ := Int.ceil_pos.mpr hq
  have hn : vertical_num_bands_initial extent bd = ⌈extent / bd⌉ + 1 := by
    unfold vertical_num_bands_initial
    exact max_eq_right (by omega)
  have hone : (1 : ℤ) < vertical_num_bands_initial extent bd := by rw [hn]; omega
  have hcpos : (0 : ℚ) < (⌈extent / bd⌉ : ℚ) := by exact_mod_cast lt_of_lt_of_le one_pos hc1
  have hinit : vertical_band_distance_initial extent bd = extent / (⌈extent / bd⌉ : ℚ) := by
    unfold vertical_band_distance_initial
    rw [if_pos hone, hn]
    push_cast
    ring_nf
  have hle : vertical_band_distance_initial extent bd ≤ bd := by
    rw [hinit, div_le_iff₀ hcpos]
    have h1 : extent / bd ≤ (⌈extent / bd⌉ : ℚ) := Int.le_ceil _
    have h2 : extent ≤ (⌈extent / bd⌉ : ℚ) * bd := (div_le_iff₀ hb).mp h1
    linarith
  refine ⟨hle, ?_⟩
  unfold vertical_num_bands
  rw [if_neg (not_lt.mpr hle)]

/-- For negative requested spacing the vertical generator clamps
`num_bands` to 2, the correction bumps it to 3, and a 6-point list is
returned — no rejection. -/
theorem vertical_neg_spacing_length (r : Rect) (bd : ℚ)
    (hr : r.x_min < r.x_max) (hbd : bd < 0) :
    (create_vertical_lawn_mower_utm r bd).length = 6 := by
  have hw : 0 < r.x_max - r.x_min := sub_pos.mpr hr
  have hq : (r.x_max - r.x_min) / bd ≤ 0 := le_of_lt (div_neg_of_pos_of_neg hw hbd)
  have hc : ⌈(r.x_max - r.x_min) / bd⌉ ≤ 0 := Int.ceil_le.mpr (by exact_mod_cast hq)
  have hn0 : vertical_num_bands_initial (r.x_max - r.x_min) bd = 2 := by
    unfold vertical_num_bands_initial
    exact max_eq_left (by omega)
  have hbi : vertical_band_distance_initial (r.x_max - r.x_min) bd = r.x_max - r.x_min := by
    unfold vertical_band_distance_initial
    rw [if_pos (by rw [hn0]; decide), hn0]
    norm_num
  have hfire : bd < vertical_band_distance_initial (r.x_max - r.x_min) bd := by
    rw [hbi]; linarith
  have hn : vertical_num_bands (r.x_max - r.x_min) bd = 3 := by
    unfold vertical_num_bands
    rw [if_pos hfire, hn0]
    decide
  unfold create_vertical_lawn_mower_utm
  rw [hn, show ((3:ℤ)).toNat = 3 from rfl, vertical_foldl_length]
  decide

theorem pair_dot_swap (p1 p2 : ℚ × ℚ) (bdx bdy : ℚ) :
    pair_dot (p2, p1) bdx bdy = -pair_dot (p1, p2) bdx bdy := by
  unfold pair_dot; ring

/-- The ordering step of `lawn_mower.py:446-453` orders the pair by the
band's parity: even bands end up with non-negative dot product against
the band direction, odd bands with non-positive dot product. -/
theorem orient_band_parity (i : ℕ) (p1 p2 : ℚ × ℚ) (bdx bdy : ℚ) :
    (i % 2 = 0 → 0 ≤ pair_dot (orient_band i p1 p2 bdx bdy) bdx bdy) ∧
    (i % 2 = 1 → pair_dot (orient_band i p1 p2 bdx bdy) bdx bdy ≤ 0) := by
  by_cases hc : (i % 2 = 0 ∧ (p2.1 - p1.1) * bdx + (p2.2 - p1.2) * bdy < 0) ∨
      (i % 2 = 1 ∧ 0 < (p2.1 - p1.1) * bdx + (p2.2 - p1.2) * bdy)
  · have ho : orient_band i p1 p2 bdx bdy = (p2, p1) := by
      simp only [orient_band]
      rw [if_pos hc]
    rw [ho, pair_dot_swap]
    have hval : pair_dot (p1, p2) bdx bdy = (p2.1 - p1.1) * bdx + (p2.2 - p1.2) * bdy := rfl
    constructor
    · intro h0
      rcases hc with ⟨_, hneg⟩ | ⟨h1, _⟩
      · rw [hval]; linarith
      · omega
    · intro h1
      rcases hc with ⟨h0, _⟩ | ⟨_, hpos⟩
      · omega
      · rw [hval]; linarith
  · have ho : orient_band i p1 p2 bdx bdy = (p1, p2) := by
      simp only [orient_band]
      rw [if_neg hc]
    rw [ho]
    push_neg at hc
    have hval : pair_dot (p1, p2) bdx bdy = (p2.1 - p1.1) * bdx + (p2.2 - p1.2) * bdy := rfl
    exact ⟨fun h0 => by rw [hval]; exact hc.1 h0, fun h1 => by rw [hval]; exact hc.2 h1⟩

/-! ## Trigonometric facts for the angle conversion -/

theorem py_mod_of_lt {a : ℝ} (h0 : 0 ≤ a) (h1 : a < 180) : py_mod a 180 = a := by
  unfold py_mod
  rw [show ⌊a / 180⌋ = 0 from Int.floor_eq_zero_iff.mpr
    ⟨div_nonneg h0 (by norm_num), by rw [div_lt_one (by norm_num : (0:ℝ) < 180)]; linarith⟩]
  simp

theorem py_mod_of_lt_two {a : ℝ} (h0 : 180 ≤ a) (h1 : a < 360) : py_mod a 180 = a - 180 := by
  unfold py_mod
  rw [show ⌊a / 180⌋ = 1 by
    rw [Int.floor_eq_iff]
    constructor
    · push_cast; rw [le_div_iff₀ (by norm_num : (0:ℝ) < 180)]; linarith
    · push_cast; rw [div_lt_iff₀ (by norm_num : (0:ℝ) < 180)]; linarith]
  push_cast
  ring

theorem py_mod_of_neg {a : ℝ} (h0 : -180 ≤ a) (h1 : a < 0) : py_mod a 180 = a + 180 := by
  unfold py_mod
  rw [show ⌊a / 180⌋ = -1 by
    rw [Int.floor_eq_iff]
    constructor
    · push_cast; rw [le_div_iff₀ (by norm_num : (0:ℝ) < 180)]; linarith
    · push_cast; rw [div_lt_iff₀ (by norm_num : (0:ℝ) < 180)]; linarith]
  push_cast
  ring

theorem code_band_dir_eq_spec_of_lt (angle : ℝ) (h0 : 0 < angle) (h90 : angle < 90) :
    code_band_dir angle = spec_direction angle := by
  unfold code_band_dir line_dx line_dy line_angle_rad spec_direction spec_line_angle
  rw [py_mod_of_lt (by linarith) (by linarith), py_mod_of_lt (by linarith) (by linarith)]
  rw [show (angle + 90) * Real.pi / 180 = Real.pi / 2 + angle * (Real.pi / 180) by ring,
    show (90 - angle) * Real.pi / 180 = Real.pi / 2 - angle * (Real.pi / 180) by ring]
  rw [Real.cos_pi_div_two_sub, Real.sin_pi_div_two_sub, Real.cos_add, Real.sin_add,
    Real.cos_pi_div_two, Real.sin_pi_div_two]
  apply Prod.ext <;> simp

theorem code_band_dir_eq_spec_of_gt (angle : ℝ) (h90 : 90 < angle) (h180 : angle < 180) :
    code_band_dir angle = spec_direction angle := by
  unfold code_band_dir line_dx line_dy line_angle_rad spec_direction spec_line_angle
  rw [py_mod_of_lt_two (by linarith) (by linarith), py_mod_of_neg (by linarith) (by linarith)]
  rw [show (angle + 90 - 180) * Real.pi / 180 = angle * (Real.pi / 180) - Real.pi / 2 by ring,
    show (90 - angle + 180) * Real.pi / 180 = Real.pi + (Real.pi / 2 - angle * (Real.pi / 180))
      by ring]
  rw [Real.cos_sub, Real.sin_sub, Real.cos_add, Real.sin_add, Real.cos_pi, Real.sin_pi,
    Real.cos_pi_div_two_sub, Real.sin_pi_div_two_sub, Real.cos_pi_div_two, Real.sin_pi_div_two]
  apply Prod.ext <;> simp

theorem spec_direction_sq (angle : ℝ) :
    (spec_direction angle).1 ^ 2 + (spec_direction angle).2 ^ 2 = 1 := by
  unfold spec_direction
  simp [Real.cos_sq_add_sin_sq]

theorem cross2_rot_left (d : ℝ × ℝ) : cross2 (-d.2, d.1) d = -(d.1 ^ 2 + d.2 ^ 2) := by
  unfold cross2; ring

/-! ## Claim theorems -/

/-- C1: the claim says every valid rectangle, positive max_spacing and
angle yield at least 2 strips with consecutive anchors at most
max_spacing apart.  The code is wrong: the band offset cancels from the
intersection parameter of `lawn_mower.py:419` (second conjunct), so
every band is the line through the rectangle center; on the rectangle
`(0,0)-(8,6)` with unit scan normal `(3/5, -4/5)` (compass angle
`≈ 53.13°`) and max_spacing 10, that center line crosses the rectangle
through its two corners, every band collects 4 intersection entries and
is skipped, and the generator returns no strip at all (first conjunct). -/
theorem claim_C1_failing_eval :
    create_angled_lawn_mower_utm ⟨0, 0, 8, 6⟩ 10 (3/5) (-4/5) = [] ∧
    ∀ (r : Rect) (dx dy o o' : ℚ),
      band_intersections r dx dy o = band_intersections r dx dy o' :=
  ⟨eval_A, band_intersections_offset_irrelevant⟩

/-- C2 (counterexample): a band line through a rectangle corner reports
the corner once per incident edge: on `(0,0)-(8,6)` with scan normal
`(3/5, -4/5)` the band's intersection list has 4 entries and the corner
`(8,6)` appears twice as coincident points — no deduplication by
coordinate equality happens. -/
theorem claim_C2_counterexample :
    (band_intersections ⟨0, 0, 8, 6⟩ (3/5) (-4/5) (-24/5)).get? 1 = some (8, 6) ∧
    (band_intersections ⟨0, 0, 8, 6⟩ (3/5) (-4/5) (-24/5)).get? 2 = some (8, 6) ∧
    (band_intersections ⟨0, 0, 8, 6⟩ (3/5) (-4/5) (-24/5)).length = 4 := by
  simp only [band_A]
  exact ⟨rfl, rfl, rfl⟩

/-- C2 (amended): the per-band intersection routine returns at most 4
entries (at most one per rectangle edge); corner hits are not
deduplicated and may appear as coincident entries, one per incident
non-parallel edge. -/
theorem claim_C2_amended : ∀ (r : Rect) (dx dy offset : ℚ),
    (band_intersections r dx dy offset).length ≤ 4 :=
  band_intersections_length_le

/-- C3 (counterexample): in the generator's output on `(0,0)-(8,6)`
with scan normal `(4/5, -3/5)` (compass angle `≈ 36.87°`, requested
heading = band direction `(3/5, 4/5)`) and max_spacing 10, the second
emitted strip (entries 2 and 3) runs with strictly negative dot product
against the requested heading: the generator itself alternates strip
direction by band parity. -/
theorem claim_C3_counterexample :
    create_angled_lawn_mower_utm ⟨0, 0, 8, 6⟩ 10 (4/5) (-3/5)
      = [(7/4, 0), (25/4, 6), (25/4 - 1/10^8, 6), (7/4 + 1/10^8, 0)] ∧
    pair_dot ((25/4 - 1/10^8, 6), (7/4 + 1/10^8, 0)) (3/5) (4/5) < 0 :=
  ⟨eval_B, by norm_num [pair_dot]⟩

/-- C3 (amended): the ordering step of the generator fixes each strip's
internal point order by the band's parity, not by the heading alone:
even-indexed bands are ordered with non-negative dot product against
the band direction and odd-indexed bands with non-positive dot product
(the zigzag alternation happens in the generator; no later stitcher
exists in the code). -/
theorem claim_C3_amended : ∀ (i : ℕ) (p1 p2 : ℚ × ℚ) (band_dx band_dy : ℚ),
    (i % 2 = 0 → 0 ≤ pair_dot (orient_band i p1 p2 band_dx band_dy) band_dx band_dy) ∧
    (i % 2 = 1 → pair_dot (orient_band i p1 p2 band_dx band_dy) band_dx band_dy ≤ 0) :=
  orient_band_parity

/-- C3 (witness): the even case at band 0 with points on the x-axis. -/
theorem claim_C3_witness : 0 % 2 = 0 ∧
    0 ≤ pair_dot (orient_band 0 ((0:ℚ), (0:ℚ)) ((1:ℚ), (0:ℚ)) 1 0) 1 0 :=
  ⟨rfl, (claim_C3_amended 0 ((0:ℚ), (0:ℚ)) ((1:ℚ), (0:ℚ)) 1 0).1 rfl⟩

/-- C4: the claim says every emitted point lies on the rectangle
boundary, also after the duplicate-point adjustment.  The code is
wrong: on the rectangle `(0,0)-(9/2 + 2·10⁻⁹, 6)` with scan normal
`(4/5, 3/5)` (compass angle `≈ 143.13°`) and max_spacing 10, the
duplicate adjustment nudges a point that lies `10⁻⁹` from a corner past
the rectangle edge: the output contains `(-9·10⁻⁹, 6)`, which is
outside the rectangle — contradicting the repo's own test assertion
that all waypoints stay within bounds. -/
theorem claim_C4_failing_eval :
    (-(9/10^9), (6:ℚ)) ∈ create_angled_lawn_mower_utm ⟨0, 0, 9/2 + 2/10^9, 6⟩ 10 (4/5) (3/5) ∧
    ¬ on_boundary ⟨0, 0, 9/2 + 2/10^9, 6⟩ (-(9/10^9), 6) := by
  constructor
  · rw [eval_C]
    exact List.mem_cons_of_mem _ (List.mem_cons_of_mem _ (List.mem_cons_self _ _))
  · intro h
    have := h.1.1
    norm_num at this

/-- C5 (counterexample): a band whose line meets the rectangle (here
with 4 intersection entries, at two corners) is skipped — yet its
intersection count is not zero; and the generator, which only ever
appends point pairs, emits nothing at all on this input, in particular
never a degenerate single-point strip. -/
theorem claim_C5_counterexample :
    (band_intersections ⟨0, 0, 8, 6⟩ (3/5) (-4/5) (-24/5)).length = 4 ∧
    create_angled_lawn_mower_utm ⟨0, 0, 8, 6⟩ 10 (3/5) (-4/5) = [] := by
  refine ⟨?_, eval_A⟩
  rw [band_A]
  rfl

/-- C5 (amended): a band is emitted only when its intersection list has
exactly two entries; every other band (0, 1, 3 or 4 entries) is skipped
and no degenerate single-point strip is ever produced — the output
coordinate list always has even length. -/
theorem claim_C5_amended : ∀ (r : Rect) (band_distance dx dy : ℚ),
    Even (create_angled_lawn_mower_utm r band_distance dx dy).length := by
  intro r bd dx dy
  unfold create_angled_lawn_mower_utm
  exact angled_foldl_even r dx dy _ _ _ ([], []) (by simp)

/-- C6 (counterexample): at angle 45° the spec's perpendicular axis
`(-direction.y, direction.x)` does not span the axis the code uses for
its band anchors (the band-direction vector `(-dy, dx)` itself, per
`lawn_mower.py:408/419`): their cross product is non-zero, so the two
axes are not parallel. -/
theorem claim_C6_counterexample :
    cross2 (spec_perp_axis 45) (code_band_dir 45) ≠ 0 := by
  rw [code_band_dir_eq_spec_of_lt 45 (by norm_num) (by norm_num)]
  unfold spec_perp_axis
  rw [cross2_rot_left, spec_direction_sq]
  norm_num

/-- C6 (amended): for every angle strictly between 0° and 180° other
than 90°, the code's band direction `(-dy, dx)` with
`(dx, dy) = (sin r, cos r)`, `r = radians((angle+90) mod 180)`, equals
the spec's reference direction `(cos l, sin l)` with
`l = (90 - angle) mod 180`; but the axis the code uses for its band
anchors is that band direction itself, which is orthogonal to — never
spanning — the spec's perpendicular offset axis: the cross product of
the two axes is identically `-1`. -/
theorem claim_C6_amended : ∀ angle : ℝ, 0 < angle → angle < 180 → angle ≠ 90 →
    code_band_dir angle = spec_direction angle ∧
    cross2 (spec_perp_axis angle) (code_band_dir angle) = -1 := by
  intro a h0 h180 h90
  have heq : code_band_dir a = spec_direction a := by
    rcases lt_or_gt_of_ne h90 with h | h
    · exact code_band_dir_eq_spec_of_lt a h0 h
    · exact code_band_dir_eq_spec_of_gt a h h180
  refine ⟨heq, ?_⟩
  rw [heq]
  unfold spec_perp_axis
  rw [cross2_rot_left, spec_direction_sq]

/-- C6 (witness): the amended statement instantiated at 45°. -/
theorem claim_C6_witness :
    ((0:ℝ) < 45 ∧ (45:ℝ) < 180 ∧ (45:ℝ) ≠ 90) ∧
    (code_band_dir 45 = spec_direction 45 ∧
      cross2 (spec_perp_axis 45) (code_band_dir 45) = -1) :=
  ⟨⟨by norm_num, by norm_num, by norm_num⟩,
    claim_C6_amended 45 (by norm_num) (by norm_num) (by norm_num)⟩

/-- C7 (counterexample): called with max_spacing = -1 on the valid
square `(0,0)-(10,10)` (angle 0, the vertical path), the planner is not
rejected: it returns a 6-waypoint list. -/
theorem claim_C7_counterexample :
    create_vertical_lawn_mower_utm ⟨0, 0, 10, 10⟩ (-1)
      = [(0, 0), (0, 10), (5, 10), (5, 0), (10, 0), (10, 10)] :=
  eval_vertical_neg

/-- C7 (amended): no validation of max_spacing exists: for every valid
rectangle and negative max_spacing the vertical generator proceeds
(`num_bands` clamps to 2, the correction bumps it to 3) and returns a
6-waypoint list instead of raising an error. -/
theorem claim_C7_amended : ∀ (r : Rect) (band_distance : ℚ),
    r.x_min < r.x_max → band_distance < 0 →
    (create_vertical_lawn_mower_utm r band_distance).length = 6 :=
  vertical_neg_spacing_length

/-- C7 (witness): the amended statement at the square `(0,0)-(10,10)`
and max_spacing -1. -/
theorem claim_C7_witness :
    ((⟨0, 0, 10, 10⟩ : Rect).x_min < (⟨0, 0, 10, 10⟩ : Rect).x_max ∧ (-1:ℚ) < 0) ∧
    (create_vertical_lawn_mower_utm ⟨0, 0, 10, 10⟩ (-1)).length = 6 :=
  ⟨⟨by norm_num, by norm_num⟩,
    claim_C7_amended ⟨0, 0, 10, 10⟩ (-1) (by norm_num) (by norm_num)⟩

/-- C8: with turning radius 0, `2·0 ≤ |d|` holds for every strip
spacing, so the reorderer returns its input unchanged. -/
theorem claim_C8_identity : ∀ strips : List Strip,
    reorder_for_turning_radius strips 0 = strips := by
  intro strips
  unfold reorder_for_turning_radius
  rw [if_pos (show 2 * (0:ℚ) ≤ |strip_spacing strips| by
    simp [abs_nonneg])]

/-- C9: in exact arithmetic the correction branch of the axis-aligned
generators is unreachable for positive extent and positive requested
spacing: the initial spacing `extent / (num_bands - 1)` never exceeds
the requested spacing, so `num_bands` is never incremented. -/
theorem claim_C9_unreachable : ∀ extent band_distance : ℚ,
    0 < extent → 0 < band_distance →
    vertical_band_distance_initial extent band_distance ≤ band_distance ∧
    vertical_num_bands extent band_distance = vertical_num_bands_initial extent band_distance :=
  vertical_correction_unreachable

/-- C9 (witness): the statement at extent 10, requested spacing 3
(5 bands at spacing 5/2). -/
theorem claim_C9_witness :
    ((0:ℚ) < 10 ∧ (0:ℚ) < 3) ∧
    (vertical_band_distance_initial 10 3 ≤ 3 ∧
      vertical_num_bands 10 3 = vertical_num_bands_initial 10 3) :=
  ⟨⟨by norm_num, by norm_num⟩, claim_C9_unreachable 10 3 (by norm_num) (by norm_num)⟩

/-- C10: for every pair of corners and positive speed the perimeter
planner returns a route segment of exactly 5 waypoints whose first
waypoint equals its last (the closed clockwise loop through the four
corners starting at corner1). -/
theorem claim_C10_closed_loop : ∀ (corner1 corner2 : ℚ × ℚ) (speed : ℚ), 0 < speed →
    ∃ seg : RouteSegment,
      create_route_segment_perimeter corner1 corner2 speed = Except.ok seg ∧
      seg.waypoints.length = 5 ∧
      seg.waypoints.head? = some ⟨corner1.1, corner1.2, 0⟩ ∧
      seg.waypoints.getLast? = some ⟨corner1.1, corner1.2, 0⟩ := by
  intro c1 c2 s hs
  refine ⟨⟨[⟨c1.1, c1.2, 0⟩, ⟨c1.1, c2.2, 0⟩, ⟨c2.1, c2.2, 0⟩, ⟨c2.1, c1.2, 0⟩,
    ⟨c1.1, c1.2, 0⟩], s⟩, ?_, rfl, rfl, rfl⟩
  unfold create_route_segment_perimeter RouteSegment.create
  rw [if_neg (by simp), if_neg (not_le.mpr hs)]

/-- C10 (witness): the statement at corners `(0,0)`, `(1,2)` and
speed 1. -/
theorem claim_C10_witness :
    (0:ℚ) < 1 ∧
    ∃ seg : RouteSegment,
      create_route_segment_perimeter (0, 0) (1, 2) 1 = Except.ok seg ∧
      seg.waypoints.length = 5 ∧
      seg.waypoints.head? = some ⟨(0:ℚ), 0, 0⟩ ∧
      seg.waypoints.getLast? = some ⟨(0:ℚ), 0, 0⟩ :=
  ⟨by norm_num, claim_C10_closed_loop (0, 0) (1, 2) 1 (by norm_num)⟩
